import Mathlib

/- Shallow embedding of the AstroColdEmailGenerator repository.

   Source files embedded here:
   - src/app.py: detect_url_type, the /api/generate route body
   - src/generate_email.py: with_backoff, extract_json_from_response and the
     parse-failure fallback of run_email_generation
   - src/fetch_user_profile.py: validate_profile_data
   - src/fetch_company_profile.py: validate_company_data

   Python data values handled by this code (JSON payloads) are modelled by the
   inductive type PyVal.  Python operations used by the code (truthiness, the
   in operator, dict.get, str.strip, str repr, slicing, str.join) are modelled
   by small total functions; operations that raise in Python on an ill-typed
   operand return an Except PyErr value.

   Modelling notes, stated once here:
   - Python unicode classes (backslash-w in regexes, str.strip whitespace) are
     modelled over their ASCII subsets; every concrete input used below is
     ASCII, where the two agree.
   - json.loads is modelled for the JSON fragment without floats, exponents
     and backslash-u escapes (none of the repository behaviour settled below
     depends on those); failure of json.loads is Option.none, matching the
     caught json.JSONDecodeError.
   - float delays base ** i of with_backoff with base = 2.0 are exact powers
     of two, so delays are modelled as the natural numbers 2 ^ i.  -/

set_option maxRecDepth 8192

-- Python/JSON values.
inductive PyVal where
  | str (s : String)
  | int (n : Int)
  | bool (b : Bool)
  | null
  | list (xs : List PyVal)
  | dict (kvs : List (String × PyVal))

-- Exceptions raised by the Python operations modelled here.
inductive PyErr where
  | typeError
  | attributeError
  | indexError

-- Python truthiness of a value.
def pyTruthy : PyVal → Bool
  | .str s => !s.isEmpty
  | .int n => n != 0
  | .bool b => b
  | .null => false
  | .list xs => !xs.isEmpty
  | .dict kvs => !kvs.isEmpty

-- dict lookup: first binding of the key wins.
def dictGet : List (String × PyVal) → String → Option PyVal
  | [], _ => Option.none
  | (k, v) :: rest, key => if k = key then some v else dictGet rest key

-- Python substring test: needle in hay for strings.
def pySubstr (needle hay : String) : Bool :=
  hay.toList.tails.any (fun t => needle.toList.isPrefixOf t)

-- Python equality of a string against an arbitrary value.
def pyEqStr (s : String) : PyVal → Bool
  | .str t => s == t
  | _ => false

-- Python membership test s in v.  Raises TypeError when v is not a
-- container or string, exactly as Python does.
def pyIn (s : String) : PyVal → Except PyErr Bool
  | .str hay => .ok (pySubstr s hay)
  | .list xs => .ok (xs.any (pyEqStr s))
  | .dict kvs => .ok ((dictGet kvs s).isSome)
  | _ => .error PyErr.typeError

-- Python v.get(key, default).  Raises AttributeError when v is not a dict.
def pyGetD : PyVal → String → PyVal → Except PyErr PyVal
  | .dict kvs, key, d => .ok ((dictGet kvs key).getD d)
  | _, _, _ => .error PyErr.attributeError

-- Whitespace stripped by str.strip and matched by backslash-s (ASCII part).
def pySpaceChars : List Char := [' ', '\t', '\n', '\r', Char.ofNat 11, Char.ofNat 12]

def isPySpace (c : Char) : Bool := pySpaceChars.contains c

-- Python str.strip().
def pyStrip (s : String) : String :=
  (((s.toList.dropWhile isPySpace).reverse.dropWhile isPySpace).reverse).asString

-- A single-quote character, used by the Python repr of strings.
def squote : String := (Char.ofNat 39).toString

-- Mode of the repr walk over nested values.
def ReprArg : Type := Sum PyVal (Sum (List PyVal) (List (String × PyVal)))

-- Fuel-driven walk computing Python repr of a value (str of a dict or list).
-- Structural recursion on the fuel keeps the function kernel-reducible.
def reprStep : Nat → ReprArg → String
  | 0, _ => ""
  | Nat.succ fuel, Sum.inl v =>
    match v with
    | .str s => squote ++ s ++ squote
    | .int n => toString n
    | .bool b => if b then "True" else "False"
    | .null => "None"
    | .list xs => "[" ++ reprStep fuel (Sum.inr (Sum.inl xs)) ++ "]"
    | .dict kvs => "\x7b" ++ reprStep fuel (Sum.inr (Sum.inr kvs)) ++ "\x7d"
  | Nat.succ fuel, Sum.inr (Sum.inl xs) =>
    match xs with
    | [] => ""
    | [x] => reprStep fuel (Sum.inl x)
    | x :: rest => reprStep fuel (Sum.inl x) ++ ", " ++ reprStep fuel (Sum.inr (Sum.inl rest))
  | Nat.succ fuel, Sum.inr (Sum.inr kvs) =>
    match kvs with
    | [] => ""
    | [(k, v)] => squote ++ k ++ squote ++ ": " ++ reprStep fuel (Sum.inl v)
    | (k, v) :: rest =>
        squote ++ k ++ squote ++ ": " ++ reprStep fuel (Sum.inl v) ++ ", " ++
          reprStep fuel (Sum.inr (Sum.inr rest))

-- Node count of a value, used as reprStep fuel.
mutual

def pySize : PyVal → Nat
  | .str _ => 1
  | .int _ => 1
  | .bool _ => 1
  | .null => 1
  | .list xs => 1 + pySizeList xs
  | .dict kvs => 1 + pySizeDict kvs
termination_by structural v => v

def pySizeList : List PyVal → Nat
  | [] => 1
  | x :: rest => 1 + pySize x + pySizeList rest
termination_by structural xs => xs

def pySizeDict : List (String × PyVal) → Nat
  | [] => 1
  | (_, v) :: rest => 1 + pySize v + pySizeDict rest
termination_by structural kvs => kvs

end

-- Python str(v) for the values reaching the validators (repr of containers).
def pyRepr (v : PyVal) : String := reprStep (pySize v) (Sum.inl v)

/- URL classifier, src/app.py detect_url_type (lines 61-83).

   The patterns in the source are the regular expressions
     user:    caret https? colon-slash-slash (www dot)? linkedin dot com /in/ [word-or-hyphen]+ /? dollar
     company: caret https? colon-slash-slash (www dot)? linkedin dot com /company/ [word-or-hyphen]+ /? dollar
   matched with re.match against the stripped input.  After str.strip the
   input neither starts nor ends with whitespace, so the dollar anchor is
   exactly end-of-string and the regex is a full match.  The optional groups
   (s of https, www.) are followed by literals that cannot overlap them, so
   the backtracking regex equals the deterministic consumption coded here. -/

inductive UrlType where
  | user
  | company

-- Word-or-hyphen character class of the regex (ASCII part of backslash-w).
def isWordHyphen (c : Char) : Bool :=
  c.isAlphanum || c == '_' || c == '-'

-- The mandatory scheme: http:// or https://.
def consumeScheme : List Char → Option (List Char)
  | 'h' :: 't' :: 't' :: 'p' :: 's' :: ':' :: '/' :: '/' :: rest => some rest
  | 'h' :: 't' :: 't' :: 'p' :: ':' :: '/' :: '/' :: rest => some rest
  | _ => Option.none

-- The optional www. subdomain.
def consumeWww (cs : List Char) : List Char :=
  if ['w', 'w', 'w', '.'].isPrefixOf cs then cs.drop 4 else cs

def hostChars : List Char := ['l', 'i', 'n', 'k', 'e', 'd', 'i', 'n', '.', 'c', 'o', 'm', '/']

def inSeg : List Char := ['i', 'n', '/']

def companySeg : List Char := ['c', 'o', 'm', 'p', 'a', 'n', 'y', '/']

-- Rest of the slug after its first character: word-or-hyphen characters,
-- then an optional final slash, then end of input.
def slugTail : List Char → Bool
  | [] => true
  | '/' :: [] => true
  | c :: rest => isWordHyphen c && slugTail rest

-- One-or-more word-or-hyphen characters followed by an optional slash.
def slugOk : List Char → Bool
  | [] => false
  | c :: rest => isWordHyphen c && slugTail rest

-- Path: the fixed segment (in/ or company/) then the slug.
def matchPath (seg : List Char) (cs : List Char) : Bool :=
  if seg.isPrefixOf cs then slugOk (cs.drop seg.length) else false

-- Host and path part of the pattern, after the scheme.
def urlPatternTail (seg : List Char) (r1 : List Char) : Bool :=
  if hostChars.isPrefixOf (consumeWww r1) then
    matchPath seg ((consumeWww r1).drop hostChars.length)
  else false

-- Full pattern for a given path segment, scheme mandatory as in the source.
def urlPattern (seg : List Char) (s : String) : Bool :=
  match consumeScheme s.toList with
  | Option.none => false
  | some r1 => urlPatternTail seg r1

def personPat (s : String) : Bool := urlPattern inSeg s

def companyPat (s : String) : Bool := urlPattern companySeg s

-- src/app.py detect_url_type: empty input is rejected up front (if not url),
-- the input is stripped, the user pattern is tried first, then company.
def detect_url_type (url : String) : Option UrlType :=
  if url = "" then Option.none
  else
    if personPat (pyStrip url) then some UrlType.user
    else if companyPat (pyStrip url) then some UrlType.company
    else Option.none

/- Pattern written from the words of the claim for C5, which calls the
   http/https scheme optional (the source regex requires it: https? makes
   only the letter s optional).  Kept separate from urlPattern above so the
   two readings can be compared. -/

def consumeSchemeOpt (cs : List Char) : List Char :=
  match consumeScheme cs with
  | some r => r
  | Option.none => cs

-- Person pattern as the claim words it: optional scheme, optional www.,
-- linkedin.com/in/, one-or-more word-or-hyphen characters, optional slash.
def specPersonPat (s : String) : Bool :=
  if hostChars.isPrefixOf (consumeWww (consumeSchemeOpt s.toList)) then
    matchPath inSeg ((consumeWww (consumeSchemeOpt s.toList)).drop hostChars.length)
  else false

/- Retry loop, src/generate_email.py with_backoff (lines 47-64).

   The wrapped callable fn is modelled as a map from the attempt index to the
   outcome of that network call: a value, a RateLimitError, or an
   APIStatusError carrying a status code.  The trace records the final result,
   how many calls to fn were made, and the sleeps performed in order.  -/

inductive CallOutcome where
  | success (v : PyVal)
  | rateLimit
  | apiStatus (code : Nat)

-- Terminal result of with_backoff: a value, a re-raised non-retryable
-- APIStatusError, or the RuntimeError raised after the loop (the terminal
-- RetriesExhausted failure of the spec).
inductive BackoffResult where
  | ok (v : PyVal)
  | raised (code : Nat)
  | retriesExhausted

structure BackoffTrace where
  result : BackoffResult
  calls : Nat
  sleeps : List Nat

-- The fixed retryable status set of the source: (429, 500, 502, 503, 504).
def retryableStatus (c : Nat) : Bool :=
  c == 429 || c == 500 || c == 502 || c == 503 || c == 504

def retryableOutcome : CallOutcome → Bool
  | .success _ => false
  | .rateLimit => true
  | .apiStatus c => retryableStatus c

-- One loop iteration per remaining count; i is the 0-based attempt index of
-- the source loop, and the sleep after a retryable failure is base ** i with
-- base = 2.0, an exact float power modelled as 2 ^ i.
def backoffRun (fn : Nat → CallOutcome) : Nat → Nat → List Nat → BackoffTrace
  | i, 0, sleeps => ⟨BackoffResult.retriesExhausted, i, sleeps.reverse⟩
  | i, Nat.succ r, sleeps =>
    match fn i with
    | .success v => ⟨BackoffResult.ok v, i + 1, sleeps.reverse⟩
    | .rateLimit => backoffRun fn (i + 1) r (2 ^ i :: sleeps)
    | .apiStatus c =>
      if retryableStatus c then backoffRun fn (i + 1) r (2 ^ i :: sleeps)
      else ⟨BackoffResult.raised c, i + 1, sleeps.reverse⟩

-- src/generate_email.py with_backoff(fn, max_retries=6, base=2.0).
def with_backoff (fn : Nat → CallOutcome) (max_retries : Nat) : BackoffTrace :=
  backoffRun fn 0 max_retries []

/- Model of Python json.loads for the JSON fragment used by this repository
   (objects, arrays, strings with the common escapes, integers, true, false,
   null); see the modelling notes at the top of the file.  Parsing failure is
   Option.none, standing for the json.JSONDecodeError the source catches. -/

-- JSON whitespace accepted between tokens by json.loads.
def jsonSpaceChars : List Char := [' ', '\t', '\n', '\r']

def isJsonSpace (c : Char) : Bool := jsonSpaceChars.contains c

def skipWs (cs : List Char) : List Char := cs.dropWhile isJsonSpace

-- The escapes after a backslash inside a JSON string, as a lookup table.
def escPairs : List (Char × Char) :=
  [('"', '"'), ('\\', '\\'), ('/', '/'), ('n', '\n'), ('t', '\t'), ('r', '\r'),
    ('b', Char.ofNat 8), ('f', Char.ofNat 12)]

def escChar (e : Char) : Option Char :=
  (escPairs.find? (fun p => p.1 == e)).map (fun p => p.2)

-- Body of a JSON string after the opening quote; rejects raw control
-- characters and unknown escapes as json.loads does.
def parseJStrAux (acc : List Char) : List Char → Option (String × List Char)
  | [] => Option.none
  | c :: rest =>
    if c == '"' then some (acc.reverse.asString, rest)
    else if c == '\\' then
      match rest with
      | [] => Option.none
      | e :: rest2 =>
        match escChar e with
        | some d => parseJStrAux (d :: acc) rest2
        | Option.none => Option.none
    else if c.toNat < 32 then Option.none
    else parseJStrAux (c :: acc) rest

def parseJStr (cs : List Char) : Option (String × List Char) :=
  match cs with
  | q :: rest => if q == '"' then parseJStrAux [] rest else Option.none
  | [] => Option.none

def digitsToNat (acc : Nat) : List Char → Nat × List Char
  | c :: rest =>
    if c.isDigit then digitsToNat (acc * 10 + (c.toNat - '0'.toNat)) rest else (acc, c :: rest)
  | [] => (acc, [])

-- A character that would continue a JSON float (fraction dot or exponent);
-- floats are outside the modelled fragment, so they make the parse fail.
def floatStart : List Char → Bool
  | d :: _ => d == '.' || d == 'e' || d == 'E'
  | [] => false

-- Digits of a JSON integer after the sign: 0 alone, or a nonzero leading
-- digit followed by more digits.
def parseJDigits : List Char → Option (Nat × List Char)
  | [] => Option.none
  | c :: rest =>
    if c == '0' then
      if floatStart rest then Option.none else some (0, rest)
    else if c.isDigit then
      match digitsToNat (c.toNat - '0'.toNat) rest with
      | (n, rest2) => if floatStart rest2 then Option.none else some (n, rest2)
    else Option.none

-- JSON integer: optional minus, then the digits.
def parseJInt (cs : List Char) : Option (PyVal × List Char) :=
  match cs with
  | '-' :: rest => (parseJDigits rest).map (fun p => (PyVal.int (-(p.1 : Int)), p.2))
  | _ => (parseJDigits cs).map (fun p => (PyVal.int (p.1 : Int), p.2))

-- Parser mode: a single value, the items of an array, or the members of an
-- object (in both cases after at least one item is known to follow).
inductive PMode where
  | val
  | arrItems
  | objItems

-- Fuel-driven recursive-descent JSON parser; every recursive call decrements
-- the fuel, keeping the recursion structural and kernel-reducible.
def parseF : Nat → PMode → List Char → Option (PyVal × List Char)
  | 0, _, _ => Option.none
  | Nat.succ fuel, PMode.val, cs =>
    match cs with
    | '\x7b' :: rest =>
      (match skipWs rest with
       | '\x7d' :: r2 => some (PyVal.dict [], r2)
       | r1 => parseF fuel PMode.objItems r1)
    | '[' :: rest =>
      (match skipWs rest with
       | ']' :: r2 => some (PyVal.list [], r2)
       | r1 => parseF fuel PMode.arrItems r1)
    | '"' :: _ => (parseJStr cs).map (fun p => (PyVal.str p.1, p.2))
    | 't' :: 'r' :: 'u' :: 'e' :: rest => some (PyVal.bool true, rest)
    | 'f' :: 'a' :: 'l' :: 's' :: 'e' :: rest => some (PyVal.bool false, rest)
    | 'n' :: 'u' :: 'l' :: 'l' :: rest => some (PyVal.null, rest)
    | _ => parseJInt cs
  | Nat.succ fuel, PMode.arrItems, cs =>
    match parseF fuel PMode.val cs with
    | some (v, r1) =>
      (match skipWs r1 with
       | ',' :: r2 =>
         (match parseF fuel PMode.arrItems (skipWs r2) with
          | some (PyVal.list xs, r3) => some (PyVal.list (v :: xs), r3)
          | _ => Option.none)
       | ']' :: r2 => some (PyVal.list [v], r2)
       | _ => Option.none)
    | Option.none => Option.none
  | Nat.succ fuel, PMode.objItems, cs =>
    match parseJStr cs with
    | some (k, r1) =>
      (match skipWs r1 with
       | ':' :: r2 =>
         (match parseF fuel PMode.val (skipWs r2) with
          | some (v, r3) =>
            (match skipWs r3 with
             | ',' :: r4 =>
               (match parseF fuel PMode.objItems (skipWs r4) with
                | some (PyVal.dict kvs, r5) => some (PyVal.dict ((k, v) :: kvs), r5)
                | _ => Option.none)
             | '\x7d' :: r4 => some (PyVal.dict [(k, v)], r4)
             | _ => Option.none)
          | Option.none => Option.none)
       | _ => Option.none)
    | Option.none => Option.none

-- json.loads: parse one value with surrounding whitespace and demand that
-- the whole input is consumed (anything left raises Extra data).
def json_loads (s : String) : Option PyVal :=
  match parseF (4 * s.length + 16) PMode.val (skipWs s.toList) with
  | some (v, rest) => if (skipWs rest).isEmpty then some v else Option.none
  | Option.none => Option.none

/- Fenced-code-block extraction, src/generate_email.py (lines 97-107).

   The source collects re.findall of
     three-backticks (json)? backslash-s-star lazy-group three-backticks
   over the response text.  The optional json tag and the greedy whitespace
   are followed by parts they cannot overlap (backticks are not whitespace or
   part of the tag), so the scan below, which consumes the tag when present,
   then all whitespace, then the shortest run up to the next fence, is the
   regex match; on failure at a position the scan moves one character right,
   and after a match it resumes after the closing fence, as re.findall does. -/

def backtick : Char := Char.ofNat 96

def fenceOpen : List Char := [backtick, backtick, backtick]

def jsonTag : List Char := ['j', 's', 'o', 'n']

-- Shortest prefix up to the next closing fence, with the rest after it.
def findClose : List Char → Option (List Char × List Char)
  | [] => Option.none
  | c :: rest =>
    if fenceOpen.isPrefixOf (c :: rest) then some ([], (c :: rest).drop 3)
    else
      match findClose rest with
      | some (g, r) => some (c :: g, r)
      | Option.none => Option.none

-- All fenced groups left to right, non-overlapping.
def fenceScan : Nat → List Char → List String
  | 0, _ => []
  | Nat.succ fuel, cs =>
    match cs with
    | [] => []
    | _ :: rest =>
      if fenceOpen.isPrefixOf cs then
        let r1 := cs.drop 3
        let r2 := if jsonTag.isPrefixOf r1 then r1.drop 4 else r1
        match findClose (r2.dropWhile isPySpace) with
        | some (g, after) => g.asString :: fenceScan fuel after
        | Option.none => fenceScan fuel rest
      else fenceScan fuel rest

def fenceMatches (text : String) : List String :=
  fenceScan (text.length + 1) text.toList

/- Brace-substring fallback, src/generate_email.py (lines 115-122):
   start = text.find(open-brace), end = text.rfind(close-brace) + 1, and the
   slice text[start:end] is parsed when start is not -1 and end > start. -/

def braceSlice (text : String) : Option String :=
  let cs := text.toList
  match cs.findIdx? (fun c => c == '\x7b') with
  | Option.none => Option.none
  | some start =>
    match cs.reverse.findIdx? (fun c => c == '\x7d') with
    | Option.none => Option.none
    | some ri =>
      let stop := cs.length - ri
      if start < stop then some (((cs.drop start).take (stop - start)).asString)
      else Option.none

-- First candidate string whose json.loads succeeds.
def firstParse : List String → Option PyVal
  | [] => Option.none
  | s :: rest =>
    match json_loads s with
    | some v => some v
    | Option.none => firstParse rest

-- The result object returned when every extraction attempt fails
-- (src/generate_email.py line 124).
def parseFallback (text : String) : PyVal :=
  PyVal.dict [("_parse_error", PyVal.str "Could not extract JSON"), ("_raw", PyVal.str text)]

/- src/generate_email.py extract_json_from_response (lines 97-124): try each
   fenced block stripped, then the whole text, then the brace slice; return
   the first successful parse, else the fallback object. -/
def extract_json_from_response (text : String) : PyVal :=
  match firstParse ((fenceMatches text).map pyStrip) with
  | some v => v
  | Option.none =>
    match json_loads text with
    | some v => v
    | Option.none =>
      match braceSlice text with
      | some sub =>
        (match json_loads sub with
         | some v => v
         | Option.none => parseFallback text)
      | Option.none => parseFallback text

-- The three-stage candidate list in the order the spec describes.
def candidates (text : String) : List String :=
  (fenceMatches text).map pyStrip ++ [text] ++ (braceSlice text).toList

-- Extraction as the spec words it: the first candidate that parses, else a
-- result carrying the parse-failure marker and the raw text.
def extractSpec (text : String) : PyVal :=
  (firstParse (candidates text)).getD (parseFallback text)

/- Parse-failure fallback of run_email_generation,
   src/generate_email.py (lines 262-273): the generation result is the
   extraction of the response text; when the parse-error marker is present
   and the raw text is truthy the result becomes a dict with the raw text
   under the email key. -/
def pipelineResult (txt : String) : Except PyErr PyVal :=
  let result := extract_json_from_response txt
  match pyIn "_parse_error" result with
  | .error e => .error e
  | .ok true =>
    match pyGetD result "_raw" (PyVal.str "") with
    | .error e => .error e
    | .ok raw => if pyTruthy raw then .ok (PyVal.dict [("email", raw)]) else .ok result
  | .ok false => .ok result

/- Data validators, src/fetch_user_profile.py validate_profile_data
   (lines 155-206) and src/fetch_company_profile.py validate_company_data
   (lines 163-206).  They return the Python tuple (is_valid, error_message);
   an ill-typed operand makes the underlying operation raise, surfacing as
   Except.error here, as in Python. -/

-- Unwrap of the array format: first element of a non-empty list, the value
-- itself otherwise.  The empty list is handled by the callers.
def unwrapRecord : PyVal → Option PyVal
  | .list [] => Option.none
  | .list (h :: _) => some h
  | v => some v

def userPlanText : String :=
  "Unable to fetch profile. This feature requires a paid Apify subscription. Please upgrade your Apify plan or use the Apify UI directly."

def companyPlanText : String :=
  "Unable to fetch company. This feature requires a paid Apify subscription."

def missingNameUserText : String :=
  "Profile data is incomplete. Missing name information. The profile may be private or restricted."

def missingHeadlineText : String :=
  "Profile data is incomplete. Missing headline information. The profile may be private or restricted."

def smallUserText : String :=
  "Profile data appears incomplete. The profile may be private or have limited information."

def missingNameCompanyText : String := "Company data is incomplete. Missing company name."

def smallCompanyText : String := "Company data appears incomplete."

-- Shared error-field branch: error_msg = record.get("error", "Unknown error"),
-- classified by the substring "free Apify plan".
def errorFieldBranch (pd : PyVal) (planText : String) : Except PyErr (Bool × Option PyVal) :=
  match pyGetD pd "error" (PyVal.str "Unknown error") with
  | .error e => .error e
  | .ok errMsg =>
    match pyIn "free Apify plan" errMsg with
    | .error e => .error e
    | .ok true => .ok (false, some (PyVal.str planText))
    | .ok false => .ok (false, some errMsg)

-- fullname = basic_info.get("fullname") or basic_info.get("first_name"),
-- headline = basic_info.get("headline")   (nested branch of the person case).
def nestedNameHeadline (pd : PyVal) : Except PyErr (PyVal × PyVal) :=
  match pyGetD pd "basic_info" (PyVal.dict []) with
  | .error e => .error e
  | .ok bi =>
    match pyGetD bi "fullname" PyVal.null with
    | .error e => .error e
    | .ok f1 =>
      match pyGetD bi "first_name" PyVal.null with
      | .error e => .error e
      | .ok f2 =>
        match pyGetD bi "headline" PyVal.null with
        | .error e => .error e
        | .ok h => .ok ((if pyTruthy f1 then f1 else f2), h)

-- fullname = pd.get("fullName") or pd.get("firstName"),
-- headline = pd.get("headline")   (flat branch of the person case).
def flatNameHeadline (pd : PyVal) : Except PyErr (PyVal × PyVal) :=
  match pyGetD pd "fullName" PyVal.null with
  | .error e => .error e
  | .ok f1 =>
    match pyGetD pd "firstName" PyVal.null with
    | .error e => .error e
    | .ok f2 =>
      match pyGetD pd "headline" PyVal.null with
      | .error e => .error e
      | .ok h => .ok ((if pyTruthy f1 then f1 else f2), h)

-- Person checks after the unwrap, src/fetch_user_profile.py lines 175-206.
def validateProfileCore (pd : PyVal) : Except PyErr (Bool × Option PyVal) :=
  match pyIn "error" pd with
  | .error e => .error e
  | .ok true => errorFieldBranch pd userPlanText
  | .ok false =>
    match pyIn "basic_info" pd with
    | .error e => .error e
    | .ok hasBI =>
      match (if hasBI then nestedNameHeadline pd else flatNameHeadline pd) with
      | .error e => .error e
      | .ok (fullname, headline) =>
        if pyTruthy fullname then
          if pyTruthy headline then
            if (pyRepr pd).length < 100 then .ok (false, some (PyVal.str smallUserText))
            else .ok (true, Option.none)
          else .ok (false, some (PyVal.str missingHeadlineText))
        else .ok (false, some (PyVal.str missingNameUserText))

-- src/fetch_user_profile.py validate_profile_data.
def validate_profile_data (pd0 : PyVal) : Except PyErr (Bool × Option PyVal) :=
  if pyTruthy pd0 then
    match unwrapRecord pd0 with
    | some pd => validateProfileCore pd
    | Option.none => .ok (false, some (PyVal.str "No profile data in array"))
  else .ok (false, some (PyVal.str "No profile data received"))

-- company_name = basic_info.get("name"), with the unused description fetch
-- kept alongside it as in the source (nested branch of the company case).
def nestedCompanyName (pd : PyVal) : Except PyErr PyVal :=
  match pyGetD pd "basic_info" (PyVal.dict []) with
  | .error e => .error e
  | .ok bi =>
    match pyGetD bi "name" PyVal.null with
    | .error e => .error e
    | .ok n =>
      match pyGetD bi "description" PyVal.null with
      | .error e => .error e
      | .ok _ => .ok n

-- Company checks after the unwrap, src/fetch_company_profile.py lines 182-206.
-- Only the nested basic_info shape is inspected for the company name.
def validateCompanyCore (pd : PyVal) : Except PyErr (Bool × Option PyVal) :=
  match pyIn "error" pd with
  | .error e => .error e
  | .ok true => errorFieldBranch pd companyPlanText
  | .ok false =>
    match pyIn "basic_info" pd with
    | .error e => .error e
    | .ok hasBI =>
      match (if hasBI then nestedCompanyName pd else .ok PyVal.null) with
      | .error e => .error e
      | .ok companyName =>
        if pyTruthy companyName then
          if (pyRepr pd).length < 100 then .ok (false, some (PyVal.str smallCompanyText))
          else .ok (true, Option.none)
        else .ok (false, some (PyVal.str missingNameCompanyText))

-- src/fetch_company_profile.py validate_company_data.
def validate_company_data (pd0 : PyVal) : Except PyErr (Bool × Option PyVal) :=
  if pyTruthy pd0 then
    match unwrapRecord pd0 with
    | some pd => validateCompanyCore pd
    | Option.none => .ok (false, some (PyVal.str "No company data in array"))
  else .ok (false, some (PyVal.str "No company data received"))

/- The /api/generate route, src/app.py generate_email (lines 128-299).

   The web layer is modelled as a pure function of the two request fields and
   an oracle record supplying what the external collaborators would return:
   the fetch wrappers (success flag, saved path, data) and
   run_email_generation (None or a result value).  Side effects that order
   matters for - clearing the working directory, the two fetch calls, the
   generation call - are recorded as an event trace.  The bare try/except
   around the pipeline is modelled by catching Except.error and producing the
   unknown-step 500 response; prints and the saved-file path are dropped. -/

inductive RouteEvent where
  | clearWork
  | fetchUser
  | fetchCompany
  | genCall

structure Oracles where
  fetchUserRes : Bool × String × PyVal
  fetchCompanyRes : Bool × String × PyVal
  genRes : Option PyVal

structure RouteReturn where
  body : List (String × PyVal)
  status : Nat
  events : List RouteEvent

-- Rough rendering of str(e) for the unknown-step handler.
def pyErrText : PyErr → String
  | .typeError => "TypeError"
  | .attributeError => "AttributeError"
  | .indexError => "IndexError"

-- except Exception as e: jsonify(success False, error, step unknown), 500.
def withCatch (ev : List RouteEvent) (x : Except PyErr RouteReturn) : RouteReturn :=
  match x with
  | .ok r => r
  | .error e =>
    ⟨[("success", PyVal.bool false),
      ("error", PyVal.str ("An error occurred: " ++ pyErrText e)),
      ("step", PyVal.str "unknown")], 500, ev⟩

-- profile_data[0] unwrap in the route body; an empty list would raise.
def unwrapFirst : PyVal → Except PyErr PyVal
  | .list [] => .error PyErr.indexError
  | .list (h :: _) => .ok h
  | v => .ok v

-- full_name/headline extraction of the user branch (app.py lines 197-207).
def userNameHeadline (pdata : PyVal) : Except PyErr (PyVal × PyVal) :=
  match pyIn "basic_info" pdata with
  | .error e => .error e
  | .ok true =>
    match pyGetD pdata "basic_info" (PyVal.dict []) with
    | .error e => .error e
    | .ok bi =>
      match pyGetD bi "fullname" (PyVal.str "Unknown") with
      | .error e => .error e
      | .ok n =>
        match pyGetD bi "headline" (PyVal.str "") with
        | .error e => .error e
        | .ok h => .ok (n, h)
  | .ok false =>
    match pyGetD pdata "fullName" (PyVal.str "Unknown") with
    | .error e => .error e
    | .ok n =>
      match pyGetD pdata "headline" (PyVal.str "") with
      | .error e => .error e
      | .ok h => .ok (n, h)

-- Python sep.join(v): strings are joined; a string operand joins its
-- characters; a dict joins its keys; anything else raises TypeError, as do
-- non-string elements.
def allStrs : List PyVal → Option (List String)
  | [] => some []
  | .str s :: rest => (allStrs rest).map (fun ss => s :: ss)
  | _ => Option.none

def pyJoin (sep : String) : PyVal → Except PyErr String
  | .list xs =>
    (match allStrs xs with
     | some ss => .ok (String.intercalate sep ss)
     | Option.none => .error PyErr.typeError)
  | .str s => .ok (String.intercalate sep (s.toList.map Char.toString))
  | .dict kvs => .ok (String.intercalate sep (kvs.map (fun p => p.1)))
  | _ => .error PyErr.typeError

-- Python v[:100]: slices strings and lists, raises otherwise.
def pySlice100 : PyVal → Except PyErr PyVal
  | .str s => .ok (PyVal.str ((s.toList.take 100).asString))
  | .list xs => .ok (PyVal.list (xs.take 100))
  | _ => .error PyErr.typeError

-- full_name/headline extraction of the company branch (app.py lines 235-242).
def companyNameHeadline (pdata : PyVal) : Except PyErr (PyVal × PyVal) :=
  match pyGetD pdata "basic_info" (PyVal.dict []) with
  | .error e => .error e
  | .ok bi =>
    match pyGetD bi "name" (PyVal.str "Unknown Company") with
    | .error e => .error e
    | .ok n =>
      match pyGetD bi "industries" (PyVal.list []) with
      | .error e => .error e
      | .ok inds =>
        if pyTruthy inds then
          match pyJoin ", " inds with
          | .error e => .error e
          | .ok h => .ok (n, PyVal.str h)
        else
          match pyGetD bi "description" (PyVal.str "") with
          | .error e => .error e
          | .ok d =>
            match pySlice100 d with
            | .error e => .error e
            | .ok h => .ok (n, h)

def fetchFailUserBody : List (String × PyVal) :=
  [("success", PyVal.bool false),
   ("error", PyVal.str "Failed to fetch LinkedIn profile. Please check the URL and try again."),
   ("step", PyVal.str "fetch")]

def fetchFailCompanyBody : List (String × PyVal) :=
  [("success", PyVal.bool false),
   ("error", PyVal.str "Failed to fetch company data. Please check the URL and try again."),
   ("step", PyVal.str "fetch")]

def validationFailBody (verr : Option PyVal) (details : String) : List (String × PyVal) :=
  [("success", PyVal.bool false),
   ("error", verr.getD PyVal.null),
   ("step", PyVal.str "validation"),
   ("details", PyVal.str details)]

def genFailBody : List (String × PyVal) :=
  [("success", PyVal.bool false),
   ("error", PyVal.str "Email generation failed. Please try again."),
   ("step", PyVal.str "generation")]

def noEmailBody : List (String × PyVal) :=
  [("success", PyVal.bool false),
   ("error", PyVal.str "No email was generated. Please try again."),
   ("step", PyVal.str "generation")]

def urlTypeText : UrlType → String
  | .user => "user"
  | .company => "company"

-- Generation phase shared by both branches (app.py lines 246-289).
def routeGenPhase (ut : UrlType) (fullName headline : PyVal) (ev : List RouteEvent)
    (o : Oracles) : RouteReturn :=
  let ev2 := ev ++ [RouteEvent.genCall]
  match o.genRes with
  | Option.none => ⟨genFailBody, 500, ev2⟩
  | some er =>
    if pyTruthy er then
      withCatch ev2 (do
        let _ ← pyIn "_parse_error" er
        let ec ← pyGetD er "email" (PyVal.str "")
        if pyTruthy ec then do
          let hOut ← if pyTruthy headline then pySlice100 headline else pure (PyVal.str "")
          pure ⟨[("success", PyVal.bool true),
                 ("message", PyVal.str "Email generated successfully!"),
                 ("profile", PyVal.dict [("name", fullName), ("headline", hOut)]),
                 ("email", ec),
                 ("url_type", PyVal.str (urlTypeText ut))], 200, ev2⟩
        else pure ⟨noEmailBody, 500, ev2⟩)
    else ⟨genFailBody, 500, ev2⟩

-- The try block, user branch (app.py lines 164-207).
def routeTryUser (o : Oracles) : RouteReturn :=
  let ev := [RouteEvent.clearWork, RouteEvent.fetchUser]
  match o.fetchUserRes with
  | (succ, _path, data) =>
    if succ then
      withCatch ev (do
        let vres ← validate_profile_data data
        if vres.1 then do
          let pdata ← unwrapFirst data
          let nh ← userNameHeadline pdata
          pure (routeGenPhase UrlType.user nh.1 nh.2 ev o)
        else
          pure ⟨validationFailBody vres.2
              "Profile data could not be retrieved properly. Please ensure the profile is public.",
            400, ev⟩)
    else ⟨fetchFailUserBody, 500, ev⟩

-- The try block, company branch (app.py lines 209-242).
def routeTryCompany (o : Oracles) : RouteReturn :=
  let ev := [RouteEvent.clearWork, RouteEvent.fetchCompany]
  match o.fetchCompanyRes with
  | (succ, _path, data) =>
    if succ then
      withCatch ev (do
        let vres ← validate_company_data data
        if vres.1 then do
          let pdata ← unwrapFirst data
          let nh ← companyNameHeadline pdata
          pure (routeGenPhase UrlType.company nh.1 nh.2 ev o)
        else
          pure ⟨validationFailBody vres.2 "Company data could not be retrieved properly.",
            400, ev⟩)
    else ⟨fetchFailCompanyBody, 500, ev⟩

-- Product-description validation and pipeline dispatch, after the URL check.
def routeDescPhase (ut : UrlType) (descRaw : String) (o : Oracles) : RouteReturn :=
  if pyStrip descRaw = "" then
    ⟨[("success", PyVal.bool false),
      ("error", PyVal.str "Product description is required"),
      ("step", PyVal.str "validation")], 400, []⟩
  else if 200 < (pyStrip descRaw).length then
    ⟨[("success", PyVal.bool false),
      ("error", PyVal.str "Product description must be 200 characters or less"),
      ("step", PyVal.str "validation")], 400, []⟩
  else
    match ut with
    | UrlType.user => routeTryUser o
    | UrlType.company => routeTryCompany o

/- src/app.py generate_email: strip the two request fields, classify the URL,
   validate the product description, then run the pipeline.  The three
   validation rejections return before the try block, so their traces are
   empty: no working-directory clear and no network call has happened. -/
def generate_email_route (urlRaw descRaw : String) (o : Oracles) : RouteReturn :=
  match detect_url_type (pyStrip urlRaw) with
  | Option.none =>
    ⟨[("success", PyVal.bool false),
      ("error", PyVal.str "Invalid LinkedIn URL"),
      ("step", PyVal.str "validation")], 400, []⟩
  | some ut => routeDescPhase ut descRaw o


-- Key lookup on a value: some only for dict values holding the key.
def pyDictGet : PyVal → String → Option PyVal
  | .dict kvs, k => dictGet kvs k
  | _, _ => Option.none

/- Concrete inputs used by witnesses and counterexamples. -/

-- Every call hits the rate limit.
def fnRL : Nat → CallOutcome := fun _ => CallOutcome.rateLimit

-- Calls alternate between the two retryable error kinds.
def fnAlt : Nat → CallOutcome :=
  fun i => if i % 2 = 0 then CallOutcome.rateLimit else CallOutcome.apiStatus 503

-- Two rate limits, then a non-retryable 404.
def fnThen404 : Nat → CallOutcome :=
  fun i => if i < 2 then CallOutcome.rateLimit else CallOutcome.apiStatus 404

-- Padding that keeps the serialized record above the minimum-content size.
def longPad : String := (List.replicate 120 'x').asString

-- A person record in the flat shape: top-level fullName and headline.
def flatPersonRec : PyVal :=
  PyVal.dict [("fullName", PyVal.str "Jane Doe"), ("headline", PyVal.str "Engineer"),
    ("summary", PyVal.str longPad)]

-- A person record in the nested shape: name and headline under basic_info.
def nestedPersonRec : PyVal :=
  PyVal.dict [("basic_info", PyVal.dict [("fullname", PyVal.str "Jane Doe"),
    ("headline", PyVal.str "Engineer")]), ("experience", PyVal.str longPad)]

-- A company record in the nested shape: name under basic_info.
def nestedCompanyRec : PyVal :=
  PyVal.dict [("basic_info", PyVal.dict [("name", PyVal.str "Acme"),
    ("description", PyVal.str "Tools")]), ("posts", PyVal.str longPad)]

-- A company record in the flat shape: top-level name, no basic_info.
def flatCompanyRec : PyVal :=
  PyVal.dict [("name", PyVal.str "Acme"), ("description", PyVal.str longPad)]

-- An error string containing the plan-limitation marker.
def planErrMsg : String := "works only outside the free Apify plan tier"

-- A product description of 201 characters (end-to-end scenario C).
def desc201 : String := (List.replicate 201 'a').asString

-- An oracle whose collaborators all fail; the validation rejections return
-- before any of them is consulted.
def failingOracles : Oracles :=
  ⟨(false, "", PyVal.null), (false, "", PyVal.null), Option.none⟩

/- Helper lemmas about the retry loop. -/

-- Exhaustion run: when the next r outcomes are all retryable, the loop makes
-- r more calls, sleeping 2 ^ index at each, and ends in RetriesExhausted.
theorem backoffRun_exhaust (fn : Nat → CallOutcome) :
    ∀ (r i : Nat) (sleeps : List Nat),
      (∀ k, k < r → retryableOutcome (fn (i + k)) = true) →
      backoffRun fn i r sleeps =
        ⟨BackoffResult.retriesExhausted, i + r,
          sleeps.reverse ++ (List.range' i r).map (fun k => 2 ^ k)⟩ := by
  intro r
  induction r with
  | zero => intro i sleeps _; simp [backoffRun]
  | succ r ih =>
    intro i sleeps h
    have h0 : retryableOutcome (fn i) = true := by simpa using h 0 (Nat.succ_pos r)
    have hrest : ∀ k, k < r → retryableOutcome (fn (i + 1 + k)) = true := by
      intro k hk
      have := h (k + 1) (by omega)
      have e : i + (k + 1) = i + 1 + k := by omega
      rwa [e] at this
    have hlist : (2 ^ i :: sleeps).reverse ++ (List.range' (i + 1) r).map (fun k => 2 ^ k) =
        sleeps.reverse ++ (List.range' i (r + 1)).map (fun k => 2 ^ k) := by
      rw [List.range'_succ, List.reverse_cons, List.append_assoc]
      simp
    have harith : i + 1 + r = i + (r + 1) := by omega
    cases hfi : fn i with
    | success v => rw [hfi] at h0; simp [retryableOutcome] at h0
    | rateLimit =>
      have hstep : backoffRun fn i (r + 1) sleeps = backoffRun fn (i + 1) r (2 ^ i :: sleeps) := by
        simp [backoffRun, hfi]
      rw [hstep, ih (i + 1) (2 ^ i :: sleeps) hrest, harith, hlist]
    | apiStatus c =>
      have hc : retryableStatus c = true := by
        rw [hfi] at h0; simpa [retryableOutcome] using h0
      have hstep : backoffRun fn i (r + 1) sleeps = backoffRun fn (i + 1) r (2 ^ i :: sleeps) := by
        simp [backoffRun, hfi, hc]
      rw [hstep, ih (i + 1) (2 ^ i :: sleeps) hrest, harith, hlist]

-- Raise run: after j retryable outcomes, a non-retryable status error at
-- attempt j is re-raised at once: the traced call count is j + 1 and no
-- sleep is added for the failing attempt.
theorem backoffRun_raise (fn : Nat → CallOutcome) (c : Nat) (hc : retryableStatus c = false) :
    ∀ (j r i : Nat) (sleeps : List Nat),
      j < r →
      (∀ k, k < j → retryableOutcome (fn (i + k)) = true) →
      fn (i + j) = CallOutcome.apiStatus c →
      backoffRun fn i r sleeps =
        ⟨BackoffResult.raised c, i + j + 1,
          sleeps.reverse ++ (List.range' i j).map (fun k => 2 ^ k)⟩ := by
  intro j
  induction j with
  | zero =>
    intro r i sleeps hjr _ hfj
    match r, hjr with
    | Nat.succ r, _ =>
      have hfi : fn i = CallOutcome.apiStatus c := by simpa using hfj
      simp [backoffRun, hfi, hc]
  | succ j ih =>
    intro r i sleeps hjr h hfj
    match r, hjr with
    | Nat.succ r, hjr =>
      have h0 : retryableOutcome (fn i) = true := by simpa using h 0 (Nat.succ_pos j)
      have hrest : ∀ k, k < j → retryableOutcome (fn (i + 1 + k)) = true := by
        intro k hk
        have := h (k + 1) (by omega)
        have e : i + (k + 1) = i + 1 + k := by omega
        rwa [e] at this
      have hfj2 : fn (i + 1 + j) = CallOutcome.apiStatus c := by
        have e : i + (j + 1) = i + 1 + j := by omega
        rwa [e] at hfj
      have hlist : (2 ^ i :: sleeps).reverse ++ (List.range' (i + 1) j).map (fun k => 2 ^ k) =
          sleeps.reverse ++ (List.range' i (j + 1)).map (fun k => 2 ^ k) := by
        rw [List.range'_succ, List.reverse_cons, List.append_assoc]
        simp
      have harith : i + 1 + j + 1 = i + (j + 1) + 1 := by omega
      cases hfi : fn i with
      | success v => rw [hfi] at h0; simp [retryableOutcome] at h0
      | rateLimit =>
        have hstep : backoffRun fn i (r + 1) sleeps = backoffRun fn (i + 1) r (2 ^ i :: sleeps) := by
          simp [backoffRun, hfi]
        rw [hstep, ih r (i + 1) (2 ^ i :: sleeps) (by omega) hrest hfj2, harith, hlist]
      | apiStatus c2 =>
        have hc2 : retryableStatus c2 = true := by
          rw [hfi] at h0; simpa [retryableOutcome] using h0
        have hstep : backoffRun fn i (r + 1) sleeps = backoffRun fn (i + 1) r (2 ^ i :: sleeps) := by
          simp [backoffRun, hfi, hc2]
        rw [hstep, ih r (i + 1) (2 ^ i :: sleeps) (by omega) hrest hfj2, harith, hlist]

/-- C1 counterexample: with every attempt rate-limited, the delays recorded by
with_backoff are 1, 2, 4, 8, 16, 32 seconds, not the 2, 4, 8, 16, 32, 64 the
claim states: the first retry waits 2 ^ 0 = 1 second, because the source
sleeps base ** i with the 0-based loop index i. -/
theorem claim1_backoff_delays_counterexample :
    (with_backoff fnRL 6).sleeps = [1, 2, 4, 8, 16, 32] ∧
    (with_backoff fnRL 6).sleeps ≠ [2, 4, 8, 16, 32, 64] := by
  exact ⟨rfl, by decide⟩

/-- C1 (amended): when every attempt fails with a rate-limit or
retryable-status error, the Nth retry (1-indexed) waits 2 ^ (N - 1) time
units: the delays start at 1 second and double each attempt, 1s, 2s, 4s, 8s,
16s, 32s. -/
theorem claim1_backoff_delays_amended (fn : Nat → CallOutcome)
    (h : ∀ k, k < 6 → retryableOutcome (fn k) = true) :
    (with_backoff fn 6).sleeps = [1, 2, 4, 8, 16, 32] ∧
    (∀ N, 1 ≤ N → N ≤ 6 → (with_backoff fn 6).sleeps.get? (N - 1) = some (2 ^ (N - 1))) := by
  have he := backoffRun_exhaust fn 6 0 [] (by simpa using h)
  have hs : (with_backoff fn 6).sleeps = [1, 2, 4, 8, 16, 32] := by
    show (backoffRun fn 0 6 []).sleeps = _
    rw [he]
    rfl
  refine ⟨hs, ?_⟩
  intro N h1 h6
  rw [hs]
  interval_cases N <;> rfl

/-- C1 witness: the amended statement evaluated with every call rate-limited. -/
theorem claim1_backoff_delays_witness :
    (with_backoff fnRL 6).sleeps = [1, 2, 4, 8, 16, 32] ∧
    (∀ N, 1 ≤ N → N ≤ 6 → (with_backoff fnRL 6).sleeps.get? (N - 1) = some (2 ^ (N - 1))) :=
  claim1_backoff_delays_amended fnRL (by decide)

/-- C2: if every attempt fails with a retryable error, with_backoff makes
exactly 6 calls to the wrapped function and terminates with the terminal
RetriesExhausted failure; no further call is made after the 6th failed
attempt. -/
theorem claim2_retries_exhausted (fn : Nat → CallOutcome)
    (h : ∀ k, k < 6 → retryableOutcome (fn k) = true) :
    (with_backoff fn 6).result = BackoffResult.retriesExhausted ∧
    (with_backoff fn 6).calls = 6 := by
  have he := backoffRun_exhaust fn 6 0 [] (by simpa using h)
  constructor
  · show (backoffRun fn 0 6 []).result = _
    rw [he]
  · show (backoffRun fn 0 6 []).calls = _
    rw [he]

/-- C2 witness: the statement evaluated with calls alternating between the
two retryable error kinds. -/
theorem claim2_retries_exhausted_witness :
    (∀ k, k < 6 → retryableOutcome (fnAlt k) = true) ∧
    ((with_backoff fnAlt 6).result = BackoffResult.retriesExhausted ∧
      (with_backoff fnAlt 6).calls = 6) :=
  ⟨by decide, claim2_retries_exhausted fnAlt (by decide)⟩

/-- C7: an APIStatusError whose status code is outside the retryable set
(429, 500, 502, 503, 504), reached after only retryable failures, is
re-raised at once: the result is the re-raised code, the call count stops at
that attempt, and no sleep is recorded for it. -/
theorem claim7_nonretryable_propagates (fn : Nat → CallOutcome) (j c : Nat)
    (hj : j < 6) (hfc : fn j = CallOutcome.apiStatus c)
    (hc : retryableStatus c = false)
    (hprev : ∀ k, k < j → retryableOutcome (fn k) = true) :
    (with_backoff fn 6).result = BackoffResult.raised c ∧
    (with_backoff fn 6).calls = j + 1 ∧
    (with_backoff fn 6).sleeps = (List.range' 0 j).map (fun k => 2 ^ k) := by
  have hr := backoffRun_raise fn c hc j 6 0 [] hj (by simpa using hprev) (by simpa using hfc)
  refine ⟨?_, ?_, ?_⟩
  · show (backoffRun fn 0 6 []).result = _
    rw [hr]
  · show (backoffRun fn 0 6 []).calls = _
    rw [hr]
    show 0 + j + 1 = j + 1
    omega
  · show (backoffRun fn 0 6 []).sleeps = _
    rw [hr]
    show [].reverse ++ _ = _
    simp

/-- C7 witness: two rate limits followed by a 404 give the re-raised 404
after exactly 3 calls with only the two earlier sleeps recorded. -/
theorem claim7_nonretryable_propagates_witness :
    (with_backoff fnThen404 6).result = BackoffResult.raised 404 ∧
    (with_backoff fnThen404 6).calls = 2 + 1 ∧
    (with_backoff fnThen404 6).sleeps = (List.range' 0 2).map (fun k => 2 ^ k) :=
  claim7_nonretryable_propagates fnThen404 2 404 (by decide) rfl rfl (by decide)

-- A successful prefix match fixes the head of the matched list.
theorem isPrefixOf_head {a : Char} {t l : List Char}
    (h : List.isPrefixOf (a :: t) l = true) : ∃ xs, l = a :: xs := by
  cases l with
  | nil => simp [List.isPrefixOf] at h
  | cons x xs =>
    simp [List.isPrefixOf] at h
    exact ⟨xs, by rw [h.1]⟩

-- Two path segments that start with different characters cannot both be a
-- prefix at the same position after the host.
theorem urlPatternTail_disjoint {a b : Char} (t1 t2 : List Char) (hab : (b == a) = false)
    (r1 : List Char) (h : urlPatternTail (a :: t1) r1 = true) :
    urlPatternTail (b :: t2) r1 = false := by
  unfold urlPatternTail at h ⊢
  by_cases hh : List.isPrefixOf hostChars (consumeWww r1) = true
  · rw [if_pos hh] at h ⊢
    unfold matchPath at h ⊢
    by_cases hpre : List.isPrefixOf (a :: t1) ((consumeWww r1).drop hostChars.length) = true
    · obtain ⟨xs, hxs⟩ := isPrefixOf_head hpre
      have hbf : List.isPrefixOf (b :: t2) (a :: xs) = false := by
        rw [show List.isPrefixOf (b :: t2) (a :: xs) =
            ((b == a) && List.isPrefixOf t2 xs) from rfl, hab, Bool.false_and]
      simp [hxs, hbf]
    · rw [if_neg hpre] at h; simp at h
  · rw [if_neg hh] at h; simp at h

theorem urlPattern_disjoint {a b : Char} (t1 t2 : List Char) (hab : (b == a) = false)
    (s : String) (h : urlPattern (a :: t1) s = true) : urlPattern (b :: t2) s = false := by
  unfold urlPattern at h ⊢
  cases hs : consumeScheme s.toList with
  | none => rfl
  | some r1 =>
    have h' : urlPatternTail (a :: t1) r1 = true := by rw [hs] at h; exact h
    show urlPatternTail (b :: t2) r1 = false
    exact urlPatternTail_disjoint t1 t2 hab r1 h'

theorem person_not_company (s : String) (h : personPat s = true) : companyPat s = false := by
  have h' : urlPattern ('i' :: ['n', '/']) s = true := h
  exact @urlPattern_disjoint 'i' 'c' ['n', '/'] ['o', 'm', 'p', 'a', 'n', 'y', '/'] rfl s h'

/-- C5 counterexample: the claim describes the person pattern with an optional
http/https scheme, but the source regex requires the scheme (https? makes only
the final s optional).  The scheme-less string below matches the pattern as
the claim words it, yet detect_url_type classifies it as invalid. -/
theorem claim5_url_counterexample :
    specPersonPat "linkedin.com/in/jane-doe" = true ∧
    detect_url_type "linkedin.com/in/jane-doe" = Option.none := ⟨rfl, rfl⟩

/-- C5 (amended): with the scheme mandatory as in the source, classification
of any input is the exact trichotomy: user exactly when the stripped string
matches the person pattern (mandatory http or https scheme, optional www.,
linkedin.com/in/, one-or-more word or hyphen characters, optional trailing
slash), company exactly when it matches the analogous company pattern, and
invalid (None) for every other string, including the empty string. -/
theorem claim5_url_trichotomy_amended (url : String) :
    (detect_url_type url = some UrlType.user ↔ personPat (pyStrip url) = true) ∧
    (detect_url_type url = some UrlType.company ↔ companyPat (pyStrip url) = true) ∧
    (detect_url_type url = Option.none ↔
      (personPat (pyStrip url) = false ∧ companyPat (pyStrip url) = false)) := by
  by_cases he : url = ""
  · subst he
    have hp : personPat (pyStrip "") = false := rfl
    have hc : companyPat (pyStrip "") = false := rfl
    simp [detect_url_type, hp, hc]
  · unfold detect_url_type
    rw [if_neg he]
    by_cases hp : personPat (pyStrip url) = true
    · have hc := person_not_company (pyStrip url) hp
      simp [hp, hc]
    · have hp' : personPat (pyStrip url) = false := by
        cases hb : personPat (pyStrip url) with
        | false => rfl
        | true => exact absurd hb hp
      by_cases hc : companyPat (pyStrip url) = true
      · simp [hp', hc]
      · have hc' : companyPat (pyStrip url) = false := by
          cases hb : companyPat (pyStrip url) with
          | false => rfl
          | true => exact absurd hb hc
        simp [hp', hc']

/- Helper lemmas about firstParse. -/

theorem firstParse_cons (s : String) (rest : List String) :
    firstParse (s :: rest) =
      match json_loads s with
      | some v => some v
      | Option.none => firstParse rest := rfl

theorem firstParse_some_append (xs ys : List String) (v : PyVal)
    (h : firstParse xs = some v) : firstParse (xs ++ ys) = some v := by
  induction xs with
  | nil => simp [firstParse] at h
  | cons s rest ih =>
    cases hj : json_loads s with
    | some w =>
      rw [firstParse_cons, hj] at h
      rw [List.cons_append, firstParse_cons, hj]
      exact h
    | none =>
      rw [firstParse_cons, hj] at h
      rw [List.cons_append, firstParse_cons, hj]
      exact ih h

theorem firstParse_none_append (xs ys : List String)
    (h : firstParse xs = Option.none) : firstParse (xs ++ ys) = firstParse ys := by
  induction xs with
  | nil => simp
  | cons s rest ih =>
    cases hj : json_loads s with
    | some w =>
      rw [firstParse_cons, hj] at h
      simp at h
    | none =>
      rw [firstParse_cons, hj] at h
      rw [List.cons_append, firstParse_cons, hj]
      exact ih h

theorem firstParse_mem (l : List String) (v : PyVal) (h : firstParse l = some v) :
    ∃ c, c ∈ l ∧ json_loads c = some v := by
  induction l with
  | nil => simp [firstParse] at h
  | cons s rest ih =>
    cases hj : json_loads s with
    | some w =>
      rw [firstParse_cons, hj] at h
      have hw : some w = some v := h
      exact ⟨s, by simp, by rw [hj]; exact hw⟩
    | none =>
      rw [firstParse_cons, hj] at h
      have h' : firstParse rest = some v := h
      obtain ⟨c, hc, hcv⟩ := ih h'
      exact ⟨c, by simp [hc], hcv⟩

-- The staged extraction of the source equals the first-success-over-the-
-- candidate-list formulation of the spec.
theorem extract_eq_spec (text : String) :
    extract_json_from_response text = extractSpec text := by
  unfold extract_json_from_response extractSpec candidates
  rw [List.append_assoc]
  cases hf : firstParse ((fenceMatches text).map pyStrip) with
  | some v =>
    rw [firstParse_some_append _ _ v hf]
    rfl
  | none =>
    rw [firstParse_none_append _ _ hf]
    rw [List.singleton_append, firstParse_cons]
    cases hw : json_loads text with
    | some v => rfl
    | none =>
      cases hb : braceSlice text with
      | none => rfl
      | some sub =>
        show (match json_loads sub with
              | some v => v
              | Option.none => parseFallback text) =
            (firstParse [sub]).getD (parseFallback text)
        rw [show firstParse [sub] =
            (match json_loads sub with
             | some v => some v
             | Option.none => firstParse []) from rfl]
        cases hj : json_loads sub with
        | some v => rfl
        | none => rfl

/-- C3: extract_json_from_response tries, in order, the stripped contents of
the fenced code blocks (tagged json or untagged), then the whole response
text, then the substring from the first opening brace to the last closing
brace; the first successful parse is returned, and when every attempt fails
the result is the object carrying the parse-failure marker together with the
original raw text, not a raised error. -/
theorem claim3_extraction_order_and_fallback (text : String) :
    extract_json_from_response text = extractSpec text :=
  extract_eq_spec text

/-- C10: extraction is total - for every input it returns either a value that
one of the three candidate stages parses to, or the fallback object carrying
the parse-failure marker and the raw text; and the parsed value need not be a
key/value map, as the fenced block holding a bare JSON array shows. -/
theorem claim10_extraction_totality :
    (∀ text : String,
      (∃ c, c ∈ candidates text ∧ json_loads c = some (extract_json_from_response text)) ∨
        extract_json_from_response text = parseFallback text) ∧
    extract_json_from_response "```json\n[1, 2]\n```" = PyVal.list [PyVal.int 1, PyVal.int 2] := by
  constructor
  · intro text
    rw [extract_eq_spec text]
    unfold extractSpec
    cases hf : firstParse (candidates text) with
    | none => right; rfl
    | some v =>
      left
      obtain ⟨c, hc, hcv⟩ := firstParse_mem (candidates text) v hf
      exact ⟨c, hc, by simp [hcv]⟩
  · rfl

/-- C9 counterexample: a response that parses as structured data without an
email field passes through the fallback step of run_email_generation
unchanged, so the produced result carries neither an email entry nor the
parse-failure marker - it is exactly the silently-empty result the claim
rules out. -/
theorem claim9_counterexample :
    pipelineResult "\x7b\"subject\": \"hi\"\x7d" =
      .ok (PyVal.dict [("subject", PyVal.str "hi")]) ∧
    pyDictGet (PyVal.dict [("subject", PyVal.str "hi")]) "email" = Option.none ∧
    pyDictGet (PyVal.dict [("subject", PyVal.str "hi")]) "_parse_error" = Option.none :=
  ⟨rfl, rfl, rfl⟩

/-- C9 (amended): every result produced by the fallback step of
run_email_generation from a response whose extraction failed carries either a
non-empty email string (the raw response text) under the email key or the
explicit parse-failure marker together with the raw text; a successfully
parsed response is returned as-is and may carry neither. -/
theorem claim9_never_silent_amended (txt : String)
    (h : extract_json_from_response txt = parseFallback txt) :
    ∃ v, pipelineResult txt = .ok v ∧
      ((∃ s, pyDictGet v "email" = some (PyVal.str s) ∧ s ≠ "") ∨
        (pyDictGet v "_parse_error" = some (PyVal.str "Could not extract JSON") ∧
          pyDictGet v "_raw" = some (PyVal.str txt))) := by
  unfold pipelineResult
  rw [h]
  by_cases he : txt = ""
  · subst he
    refine ⟨parseFallback "", ?_, Or.inr ⟨rfl, rfl⟩⟩
    rfl
  · have hie : txt.isEmpty = false := by
      cases hcase : txt.isEmpty with
      | true => exact absurd ((String.isEmpty_iff txt).mp hcase) he
      | false => rfl
    have ht : pyTruthy (PyVal.str txt) = true := by
      show (!txt.isEmpty) = true
      rw [hie]
      rfl
    refine ⟨PyVal.dict [("email", PyVal.str txt)], ?_, Or.inl ⟨txt, rfl, he⟩⟩
    show (match pyIn "_parse_error" (parseFallback txt) with
          | .error e => (.error e : Except PyErr PyVal)
          | .ok true =>
            match pyGetD (parseFallback txt) "_raw" (PyVal.str "") with
            | .error e => .error e
            | .ok raw =>
              if pyTruthy raw then .ok (PyVal.dict [("email", raw)]) else .ok (parseFallback txt)
          | .ok false => .ok (parseFallback txt)) = _
    rw [show pyIn "_parse_error" (parseFallback txt) = .ok true from rfl,
      show pyGetD (parseFallback txt) "_raw" (PyVal.str "") = .ok (PyVal.str txt) from rfl]
    show (if pyTruthy (PyVal.str txt) = true
          then (Except.ok (PyVal.dict [("email", PyVal.str txt)]) : Except PyErr PyVal)
          else Except.ok (parseFallback txt)) = Except.ok (PyVal.dict [("email", PyVal.str txt)])
    rw [ht]
    simp

/-- C9 witness: the amended statement evaluated on unparseable prose. -/
theorem claim9_never_silent_witness :
    ∃ v, pipelineResult "no structured output here" = .ok v ∧
      ((∃ s, pyDictGet v "email" = some (PyVal.str s) ∧ s ≠ "") ∨
        (pyDictGet v "_parse_error" = some (PyVal.str "Could not extract JSON") ∧
          pyDictGet v "_raw" = some (PyVal.str "no structured output here"))) :=
  claim9_never_silent_amended "no structured output here" rfl

/-- C4 counterexample: a company record carrying the canonical name field in
the flat shape (top level, without basic_info) fails the name-presence check
of the company validator, so the claim that both validators accept both
shapes transparently is false for company records. -/
theorem claim4_shape_counterexample :
    validate_company_data (PyVal.dict [("name", PyVal.str "Acme Corporation"),
        ("description", PyVal.str longPad)]) =
      .ok (false, some (PyVal.str missingNameCompanyText)) := rfl

/-- C4 (amended): the person validator accepts the canonical name under both
the flat shape (top-level fullName) and the nested shape (basic_info
fullname), while the company validator accepts only the nested shape
(basic_info name): a flat company record with a top-level name is rejected
for missing name. -/
theorem claim4_shape_amended :
    validate_profile_data flatPersonRec = .ok (true, Option.none) ∧
    validate_profile_data nestedPersonRec = .ok (true, Option.none) ∧
    validate_company_data nestedCompanyRec = .ok (true, Option.none) ∧
    validate_company_data flatCompanyRec = .ok (false, some (PyVal.str missingNameCompanyText)) :=
  ⟨rfl, rfl, rfl, rfl⟩

/- Shared pieces of the error-field argument for C6. -/

theorem errorFieldBranch_str (kvs : List (String × PyVal)) (m : String) (planText : String)
    (h : dictGet kvs "error" = some (PyVal.str m)) :
    errorFieldBranch (PyVal.dict kvs) planText =
      .ok (false, some (if pySubstr "free Apify plan" m then PyVal.str planText
        else PyVal.str m)) := by
  unfold errorFieldBranch
  have hget : pyGetD (PyVal.dict kvs) "error" (PyVal.str "Unknown error") = .ok (PyVal.str m) := by
    show Except.ok ((dictGet kvs "error").getD (PyVal.str "Unknown error")) = _
    rw [h]
    rfl
  rw [hget]
  show (match pyIn "free Apify plan" (PyVal.str m) with
        | Except.error e => (Except.error e : Except PyErr (Bool × Option PyVal))
        | Except.ok true => Except.ok (false, some (PyVal.str planText))
        | Except.ok false => Except.ok (false, some (PyVal.str m))) = _
  rw [show pyIn "free Apify plan" (PyVal.str m) =
      .ok (pySubstr "free Apify plan" m) from rfl]
  cases hs : pySubstr "free Apify plan" m with
  | true => rfl
  | false => rfl

theorem validateProfileCore_error (kvs : List (String × PyVal)) (m : String)
    (h : dictGet kvs "error" = some (PyVal.str m)) :
    validateProfileCore (PyVal.dict kvs) =
      .ok (false, some (if pySubstr "free Apify plan" m then PyVal.str userPlanText
        else PyVal.str m)) := by
  unfold validateProfileCore
  have hin : pyIn "error" (PyVal.dict kvs) = .ok true := by
    show Except.ok ((dictGet kvs "error").isSome) = .ok true
    rw [h]
    rfl
  rw [hin]
  exact errorFieldBranch_str kvs m userPlanText h

theorem validateCompanyCore_error (kvs : List (String × PyVal)) (m : String)
    (h : dictGet kvs "error" = some (PyVal.str m)) :
    validateCompanyCore (PyVal.dict kvs) =
      .ok (false, some (if pySubstr "free Apify plan" m then PyVal.str companyPlanText
        else PyVal.str m)) := by
  unfold validateCompanyCore
  have hin : pyIn "error" (PyVal.dict kvs) = .ok true := by
    show Except.ok ((dictGet kvs "error").isSome) = .ok true
    rw [h]
    rfl
  rw [hin]
  exact errorFieldBranch_str kvs m companyPlanText h

theorem dict_truthy_of_lookup (kvs : List (String × PyVal)) (k : String) (v : PyVal)
    (h : dictGet kvs k = some v) : pyTruthy (PyVal.dict kvs) = true := by
  cases kvs with
  | nil => simp [dictGet] at h
  | cons p rest => rfl

/-- C6 (amended): for every fetched record - a map, or wrapped as the sole
element of a sequence - whose error field holds a string, both validators
return a validation failure regardless of the other fields; the message is
the plan-limitation text of the respective validator when the error string
contains "free Apify plan", and the upstream error string itself otherwise.
A non-string error value instead raises a TypeError inside the validator
(see the counterexample). -/
theorem claim6_error_field_amended (kvs : List (String × PyVal)) (m : String)
    (h : dictGet kvs "error" = some (PyVal.str m)) :
    validate_profile_data (PyVal.dict kvs) =
      .ok (false, some (if pySubstr "free Apify plan" m then PyVal.str userPlanText
        else PyVal.str m)) ∧
    validate_company_data (PyVal.dict kvs) =
      .ok (false, some (if pySubstr "free Apify plan" m then PyVal.str companyPlanText
        else PyVal.str m)) ∧
    validate_profile_data (PyVal.list [PyVal.dict kvs]) =
      .ok (false, some (if pySubstr "free Apify plan" m then PyVal.str userPlanText
        else PyVal.str m)) ∧
    validate_company_data (PyVal.list [PyVal.dict kvs]) =
      .ok (false, some (if pySubstr "free Apify plan" m then PyVal.str companyPlanText
        else PyVal.str m)) := by
  have htr := dict_truthy_of_lookup kvs "error" (PyVal.str m) h
  refine ⟨?_, ?_, ?_, ?_⟩
  · unfold validate_profile_data
    rw [if_pos htr]
    exact validateProfileCore_error kvs m h
  · unfold validate_company_data
    rw [if_pos htr]
    exact validateCompanyCore_error kvs m h
  · unfold validate_profile_data
    rw [if_pos (show pyTruthy (PyVal.list [PyVal.dict kvs]) = true from rfl)]
    exact validateProfileCore_error kvs m h
  · unfold validate_company_data
    rw [if_pos (show pyTruthy (PyVal.list [PyVal.dict kvs]) = true from rfl)]
    exact validateCompanyCore_error kvs m h

/-- C6 witness: the amended statement evaluated on a record whose error
string contains the plan-limitation marker. -/
theorem claim6_error_field_witness :
    validate_profile_data (PyVal.dict [("error", PyVal.str planErrMsg)]) =
      .ok (false, some (if pySubstr "free Apify plan" planErrMsg then PyVal.str userPlanText
        else PyVal.str planErrMsg)) ∧
    validate_company_data (PyVal.dict [("error", PyVal.str planErrMsg)]) =
      .ok (false, some (if pySubstr "free Apify plan" planErrMsg then PyVal.str companyPlanText
        else PyVal.str planErrMsg)) ∧
    validate_profile_data (PyVal.list [PyVal.dict [("error", PyVal.str planErrMsg)]]) =
      .ok (false, some (if pySubstr "free Apify plan" planErrMsg then PyVal.str userPlanText
        else PyVal.str planErrMsg)) ∧
    validate_company_data (PyVal.list [PyVal.dict [("error", PyVal.str planErrMsg)]]) =
      .ok (false, some (if pySubstr "free Apify plan" planErrMsg then PyVal.str companyPlanText
        else PyVal.str planErrMsg)) :=
  claim6_error_field_amended [("error", PyVal.str planErrMsg)] planErrMsg rfl

/-- C6 counterexample: a record containing an error field holding a
non-string value makes both validators raise a TypeError (the membership
test of the plan-limitation substring is applied to an int), so no
validation-failure tuple is returned for it. -/
theorem claim6_error_field_counterexample :
    validate_profile_data (PyVal.dict [("error", PyVal.int 42)]) = .error PyErr.typeError ∧
    validate_company_data (PyVal.dict [("error", PyVal.int 42)]) = .error PyErr.typeError :=
  ⟨rfl, rfl⟩

/-- C8: a generation request whose product description strips to empty or to
more than 200 characters is rejected with success false, step validation and
HTTP status 400, and the event trace is empty: no working-directory clear,
no fetch call and no generation call has happened. -/
theorem claim8_description_validation (urlRaw descRaw : String) (o : Oracles)
    (h : pyStrip descRaw = "" ∨ 200 < (pyStrip descRaw).length) :
    (generate_email_route urlRaw descRaw o).status = 400 ∧
    (generate_email_route urlRaw descRaw o).events = [] ∧
    dictGet (generate_email_route urlRaw descRaw o).body "success" = some (PyVal.bool false) ∧
    dictGet (generate_email_route urlRaw descRaw o).body "step" = some (PyVal.str "validation") := by
  have hphase : ∀ ut : UrlType,
      (routeDescPhase ut descRaw o).status = 400 ∧
      (routeDescPhase ut descRaw o).events = [] ∧
      dictGet (routeDescPhase ut descRaw o).body "success" = some (PyVal.bool false) ∧
      dictGet (routeDescPhase ut descRaw o).body "step" = some (PyVal.str "validation") := by
    intro ut
    unfold routeDescPhase
    by_cases hpd : pyStrip descRaw = ""
    · rw [if_pos hpd]
      exact ⟨rfl, rfl, rfl, rfl⟩
    · have hlen : 200 < (pyStrip descRaw).length := by
        cases h with
        | inl h0 => exact absurd h0 hpd
        | inr h1 => exact h1
      rw [if_neg hpd, if_pos hlen]
      exact ⟨rfl, rfl, rfl, rfl⟩
  unfold generate_email_route
  cases hd : detect_url_type (pyStrip urlRaw) with
  | none => exact ⟨rfl, rfl, rfl, rfl⟩
  | some ut => exact hphase ut

/-- C8 witness: the statement evaluated on a valid URL and a 201-character
description with an oracle that would fail every collaborator. -/
theorem claim8_description_validation_witness :
    (generate_email_route "https://linkedin.com/in/jane" desc201 failingOracles).status = 400 ∧
    (generate_email_route "https://linkedin.com/in/jane" desc201 failingOracles).events = [] ∧
    dictGet (generate_email_route "https://linkedin.com/in/jane" desc201 failingOracles).body
      "success" = some (PyVal.bool false) ∧
    dictGet (generate_email_route "https://linkedin.com/in/jane" desc201 failingOracles).body
      "step" = some (PyVal.str "validation") :=
  claim8_description_validation "https://linkedin.com/in/jane" desc201 failingOracles
    (Or.inr (by decide))
